import Mathlib

/-!
Shallow embedding of the erp-billing-service settlement core
(invoice / payment / sales-order / sales-return lifecycle and the
event projector), translated from the Go source:

* `internal/domain/invoice.go`      — Invoice, Payment, status machines
* `internal/domain/sales_order.go`  — SalesOrder state machine
* sales-return domain               — SalesReturn, quantity validation
* application payment service       — RecordPayment / VoidPayment
* application invoice service       — CreateInvoice / UpdateInvoice / SendInvoice
* application sales order / return services — CreateSalesOrder / ProcessRefund
* `internal/adapters/inbound/kafka` — event projector (created upserts,
  same-service invoice.paid handler)

Monetary amounts are modelled as exact rationals (the Go code stores
`decimal(15,2)` columns in `float64` fields and only adds / subtracts /
compares them); statuses are modelled as the strings the Go code uses,
so that the "unknown status" defensive branches are expressible.
-/

namespace Billing

/-- Money: exact rational arithmetic standing for the Go float64 amounts. -/
abbrev Money := ℚ

/-! ## Status constants (`internal/domain/invoice.go`, `sales_order.go`) -/

def InvoiceStatusDraft : String := "draft"
def InvoiceStatusSent : String := "sent"
def InvoiceStatusPaid : String := "paid"
def InvoiceStatusOverdue : String := "overdue"
def InvoiceStatusVoid : String := "void"

def PaymentStatusCompleted : String := "completed"
def PaymentStatusVoid : String := "void"

def PaymentTypePayment : String := "payment"
def PaymentTypeRefund : String := "refund"

def SalesOrderStatusDraft : String := "draft"
def SalesOrderStatusConfirmed : String := "confirmed"
def SalesOrderStatusInvoiced : String := "invoiced"
def SalesOrderStatusPartiallyPaid : String := "partially_paid"
def SalesOrderStatusPaid : String := "paid"
def SalesOrderStatusShipped : String := "shipped"
def SalesOrderStatusCompleted : String := "completed"
def SalesOrderStatusCancelled : String := "cancelled"

def SalesReturnStatusDraft : String := "draft"
def SalesReturnStatusApproved : String := "approved"
def SalesReturnStatusReceived : String := "received"
def SalesReturnStatusRefunded : String := "refunded"

/-! ## Data model -/

/-- One invoice line (`domain.InvoiceItem`); ids are abstracted to `Nat`. -/
structure InvoiceItem where
  id : Nat
  invoiceId : Nat
  itemId : Nat
  itemType : String
  name : String
  description : String
  quantity : Money
  unitPrice : Money
  discount : Money
  tax : Money
  total : Money
  metadata : Option String
  deriving Repr, DecidableEq

/-- A payment against an invoice (`domain.Payment`). -/
structure Payment where
  id : Nat
  organizationId : Nat
  invoiceId : Nat
  amount : Money
  method : String
  reference : String
  status : String
  paymentType : String
  salesReturnId : Option Nat
  notes : String
  deriving Repr, DecidableEq

/-- The rich invoice aggregate (`domain.Invoice`), restricted to the fields
the settlement logic reads or writes. -/
structure Invoice where
  id : Nat
  organizationId : Nat
  customerId : Nat
  invoiceNumber : Option String
  sourceSystem : String
  status : String
  subTotal : Money
  discountTotal : Money
  taxTotal : Money
  adjustment : Money
  exciseDuty : Money
  totalAmount : Money
  paidAmount : Money
  balanceAmount : Money
  pdfPath : Option String
  salesOrderId : Option Nat
  items : List InvoiceItem
  deriving Repr, DecidableEq

/-! ## Invoice state machine (`internal/domain/invoice.go`) -/

/-- `Invoice.CanEdit`: only DRAFT invoices can be edited. -/
def Invoice.canEdit (i : Invoice) : Bool :=
  i.status = InvoiceStatusDraft

/-- `Invoice.CanSend`: only DRAFT invoices can be sent. -/
def Invoice.canSend (i : Invoice) : Bool :=
  i.status = InvoiceStatusDraft

/-- The `validTransitions` map literal inside `Invoice.CanTransitionTo`:
`none` models a status that is not a key of the Go map. -/
def invoiceValidTransitions (status : String) : Option (List String) :=
  if status = InvoiceStatusDraft then some [InvoiceStatusSent, InvoiceStatusVoid]
  else if status = InvoiceStatusSent then
    some [InvoiceStatusPaid, InvoiceStatusOverdue, InvoiceStatusVoid]
  else if status = InvoiceStatusOverdue then some [InvoiceStatusPaid, InvoiceStatusVoid]
  else if status = InvoiceStatusPaid then some [InvoiceStatusVoid]
  else if status = InvoiceStatusVoid then some []
  else none

/-- `Invoice.CanTransitionTo`: table lookup, defensive error on an unknown
current status, state-conflict error otherwise. -/
def Invoice.canTransitionTo (i : Invoice) (newStatus : String) : Except String Unit :=
  match invoiceValidTransitions i.status with
  | none => .error ("unknown current status: " ++ i.status)
  | some allowed =>
      if newStatus ∈ allowed then .ok ()
      else .error ("cannot transition from " ++ i.status ++ " to " ++ newStatus)

/-- `Invoice.CanReceivePayment`: only SENT invoices accept payments. -/
def Invoice.canReceivePayment (i : Invoice) : Bool :=
  i.status = InvoiceStatusSent

/-- `Invoice.CanRefund`: only PAID invoices can be refunded. -/
def Invoice.canRefund (i : Invoice) : Bool :=
  i.status = InvoiceStatusPaid

/-- `Invoice.CalculateStatus`: fully paid ⇒ PAID, otherwise the stored status. -/
def Invoice.calculateStatus (i : Invoice) : String :=
  if i.balanceAmount = 0 ∧ i.paidAmount > 0 then InvoiceStatusPaid
  else i.status

/-- `Payment.CanVoid`: only COMPLETED payments can be voided. -/
def Payment.canVoid (p : Payment) : Bool :=
  p.status = PaymentStatusCompleted

/-! ## Sales order domain (`internal/domain/sales_order.go`) -/

/-- One sales-order line (`domain.SalesOrderItem`). -/
structure SalesOrderItem where
  id : Nat
  salesOrderId : Nat
  itemId : Nat
  itemType : String
  name : String
  description : String
  quantity : Money
  unitPrice : Money
  discount : Money
  tax : Money
  total : Money
  metadata : Option String
  deriving Repr, DecidableEq

/-- The sales-order aggregate (`domain.SalesOrder`), restricted to the fields
the orchestrator logic reads or writes; dates are abstract `Nat` instants. -/
structure SalesOrder where
  id : Nat
  organizationId : Nat
  customerId : Nat
  orderNumber : Option String
  status : String
  subTotal : Money
  discountTotal : Money
  taxTotal : Money
  tdsAmount : Money
  tcsAmount : Money
  totalAmount : Money
  invoiceId : Option Nat
  shippedDate : Option Nat
  items : List SalesOrderItem
  deriving Repr, DecidableEq

/-- `SalesOrder.CanEdit`. -/
def SalesOrder.canEdit (so : SalesOrder) : Bool :=
  so.status = SalesOrderStatusDraft

/-- `SalesOrder.CanConfirm`. -/
def SalesOrder.canConfirm (so : SalesOrder) : Bool :=
  so.status = SalesOrderStatusDraft

/-- `SalesOrder.CanCreateInvoice`. -/
def SalesOrder.canCreateInvoice (so : SalesOrder) : Bool :=
  so.status = SalesOrderStatusConfirmed ∧ so.invoiceId = none

/-- `SalesOrder.CanShip`. -/
def SalesOrder.canShip (so : SalesOrder) : Bool :=
  so.status = SalesOrderStatusPaid ∧ so.shippedDate = none

/-- `SalesOrder.CanReturn`: paid or shipped, and already shipped. -/
def SalesOrder.canReturn (so : SalesOrder) : Bool :=
  (so.status = SalesOrderStatusPaid ∨ so.status = SalesOrderStatusShipped)
    ∧ so.shippedDate ≠ none

/-- `SalesOrder.CanCancel`. -/
def SalesOrder.canCancel (so : SalesOrder) : Bool :=
  so.status = SalesOrderStatusDraft
    ∨ (so.status = SalesOrderStatusConfirmed ∧ so.invoiceId = none)

/-- The `validTransitions` map literal inside `SalesOrder.CanTransitionTo`. -/
def salesOrderValidTransitions (status : String) : Option (List String) :=
  if status = SalesOrderStatusDraft then
    some [SalesOrderStatusConfirmed, SalesOrderStatusCancelled]
  else if status = SalesOrderStatusConfirmed then
    some [SalesOrderStatusInvoiced, SalesOrderStatusCancelled]
  else if status = SalesOrderStatusInvoiced then
    some [SalesOrderStatusPartiallyPaid, SalesOrderStatusPaid]
  else if status = SalesOrderStatusPartiallyPaid then some [SalesOrderStatusPaid]
  else if status = SalesOrderStatusPaid then some [SalesOrderStatusShipped]
  else if status = SalesOrderStatusShipped then some [SalesOrderStatusCompleted]
  else if status = SalesOrderStatusCompleted then some []
  else if status = SalesOrderStatusCancelled then some []
  else none

/-- `SalesOrder.CanTransitionTo`. -/
def SalesOrder.canTransitionTo (so : SalesOrder) (newStatus : String) : Except String Unit :=
  match salesOrderValidTransitions so.status with
  | none => .error ("unknown current status: " ++ so.status)
  | some allowed =>
      if newStatus ∈ allowed then .ok ()
      else .error ("cannot transition from " ++ so.status ++ " to " ++ newStatus)

/-- `SalesOrder.CalculateTotals`: recompute sub/discount/tax totals from the
items and fold in TDS/TCS. -/
def SalesOrder.calculateTotals (so : SalesOrder) : SalesOrder :=
  let subTotal := so.items.foldl (fun acc it => acc + it.quantity * it.unitPrice) 0
  let discountTotal := so.items.foldl (fun acc it => acc + it.discount) 0
  let taxTotal := so.items.foldl (fun acc it => acc + it.tax) 0
  { so with
    subTotal := subTotal
    discountTotal := discountTotal
    taxTotal := taxTotal
    totalAmount := subTotal - discountTotal + taxTotal - so.tdsAmount + so.tcsAmount }

/-- Per-item loop of `SalesOrder.Validate` (index `i` is 1-based as printed). -/
def validateSalesOrderItems : List SalesOrderItem → Nat → Except String Unit
  | [], _ => .ok ()
  | item :: rest, i =>
      if item.quantity ≤ 0 then
        .error ("item " ++ toString i ++ ": quantity must be greater than 0")
      else if item.unitPrice < 0 then
        .error ("item " ++ toString i ++ ": unit price cannot be negative")
      else validateSalesOrderItems rest (i + 1)

/-- `SalesOrder.Validate` (business-rule validation, zero uuid modelled as 0). -/
def SalesOrder.validate (so : SalesOrder) : Except String Unit :=
  if so.organizationId = 0 then .error "organization_id is required"
  else if so.customerId = 0 then .error "customer_id is required"
  else if so.items.length = 0 then .error "at least one item is required"
  else if so.totalAmount < 0 then .error "total amount cannot be negative"
  else validateSalesOrderItems so.items 1

/-! ## Sales return domain (sales-return domain file) -/

/-- One sales-return line (`domain.SalesReturnItem`). -/
structure SalesReturnItem where
  id : Nat
  salesReturnId : Nat
  salesOrderItemId : Nat
  returnedQuantity : Money
  unitPrice : Money
  tax : Money
  total : Money
  reason : String
  deriving Repr, DecidableEq

/-- The sales-return aggregate (`domain.SalesReturn`). -/
structure SalesReturn where
  id : Nat
  organizationId : Nat
  salesOrderId : Nat
  returnNumber : Option String
  status : String
  returnAmount : Money
  returnReason : String
  notes : String
  refundPaymentId : Option Nat
  items : List SalesReturnItem
  deriving Repr, DecidableEq

/-- `SalesReturn.CanApprove`. -/
def SalesReturn.canApprove (sr : SalesReturn) : Bool :=
  sr.status = SalesReturnStatusDraft

/-- `SalesReturn.CanReceive`. -/
def SalesReturn.canReceive (sr : SalesReturn) : Bool :=
  sr.status = SalesReturnStatusApproved

/-- `SalesReturn.CanRefund`: received and no refund payment attached yet. -/
def SalesReturn.canRefund (sr : SalesReturn) : Bool :=
  sr.status = SalesReturnStatusReceived ∧ sr.refundPaymentId = none

/-- The `validTransitions` map literal inside `SalesReturn.CanTransitionTo`. -/
def salesReturnValidTransitions (status : String) : Option (List String) :=
  if status = SalesReturnStatusDraft then some [SalesReturnStatusApproved]
  else if status = SalesReturnStatusApproved then some [SalesReturnStatusReceived]
  else if status = SalesReturnStatusReceived then some [SalesReturnStatusRefunded]
  else if status = SalesReturnStatusRefunded then some []
  else none

/-- `SalesReturn.CanTransitionTo`. -/
def SalesReturn.canTransitionTo (sr : SalesReturn) (newStatus : String) : Except String Unit :=
  match salesReturnValidTransitions sr.status with
  | none => .error ("unknown current status: " ++ sr.status)
  | some allowed =>
      if newStatus ∈ allowed then .ok ()
      else .error ("cannot transition from " ++ sr.status ++ " to " ++ newStatus)

/-- `SalesReturn.CalculateTotals`: return amount is the sum of item totals. -/
def SalesReturn.calculateTotals (sr : SalesReturn) : SalesReturn :=
  { sr with returnAmount := sr.items.foldl (fun acc it => acc + it.total) 0 }

/-- The `originalQty` map built by `ValidateReturnQuantity`: Go map insertion
means a later duplicate id overwrites an earlier one, hence the reversed
`find?`. -/
def originalQtyLookup (originalItems : List SalesOrderItem) (soItemId : Nat) : Option Money :=
  (originalItems.reverse.find? (fun it => it.id = soItemId)).map (·.quantity)

/-- Per-item loop of `SalesReturn.ValidateReturnQuantity` (index `i` is 1-based
as printed in the Go error messages). -/
def validateReturnItems (originalItems : List SalesOrderItem) :
    List SalesReturnItem → Nat → Except String Unit
  | [], _ => .ok ()
  | returnItem :: rest, i =>
      match originalQtyLookup originalItems returnItem.salesOrderItemId with
      | none => .error ("item " ++ toString i ++ ": sales order item not found")
      | some originalQuantity =>
          if returnItem.returnedQuantity ≤ 0 then
            .error ("item " ++ toString i ++ ": returned quantity must be greater than 0")
          else if returnItem.returnedQuantity > originalQuantity then
            .error ("item " ++ toString i ++ ": returned quantity exceeds original quantity")
          else validateReturnItems originalItems rest (i + 1)

/-- `SalesReturn.ValidateReturnQuantity`. -/
def SalesReturn.validateReturnQuantity (sr : SalesReturn)
    (originalItems : List SalesOrderItem) : Except String Unit :=
  validateReturnItems originalItems sr.items 1

/-- `SalesReturn.Validate` (business-rule validation, zero uuid modelled as 0). -/
def SalesReturn.validate (sr : SalesReturn) : Except String Unit :=
  if sr.organizationId = 0 then .error "organization_id is required"
  else if sr.salesOrderId = 0 then .error "sales_order_id is required"
  else if sr.items.length = 0 then .error "at least one item is required"
  else if sr.returnAmount < 0 then .error "return amount cannot be negative"
  else if sr.returnReason = "" then .error "return reason is required"
  else .ok ()

/-! ## Payment service (application payment service file)

`RecordPayment` / `VoidPayment` are modelled as pure functions from the
fetched entities to the entities they hand to the repositories; the payment
date (an orthogonal string-parsing step in Go) is left abstract. -/

/-- The fixed rounding tolerance `epsilon` in `RecordPayment`. -/
def paymentEpsilon : Money := 1 / 100

/-- `dto.RecordPaymentRequest`, restricted to the validated fields. -/
structure RecordPaymentRequest where
  invoiceId : Nat
  amount : Money
  method : String
  reference : String
  notes : String
  deriving Repr, DecidableEq

/-- Everything `RecordPayment` persists or triggers on success: the created
payment, the updated invoice, the direct sales-order status write performed
when the invoice became fully paid, and whether the invoice-paid event was
published. -/
structure RecordPaymentResult where
  payment : Payment
  invoice : Invoice
  salesOrderStatusUpdate : Option (Nat × String)
  invoicePaidEventPublished : Bool
  deriving Repr, DecidableEq

/-- `PaymentService.RecordPayment`: validation, payment creation, paid/balance
update, status re-derivation, and the direct linked-sales-order update. -/
def PaymentService.recordPayment (invoice : Invoice) (req : RecordPaymentRequest)
    (newPaymentId : Nat) : Except String RecordPaymentResult :=
  if ¬ invoice.canReceivePayment then
    .error ("invoice in " ++ invoice.status
      ++ " status cannot receive payments - only SENT invoices can be paid")
  else if req.amount ≤ 0 then
    .error "payment amount must be greater than zero"
  else if req.amount > invoice.balanceAmount + paymentEpsilon then
    .error "payment amount exceeds balance due"
  else
    let payment : Payment :=
      { id := newPaymentId
        organizationId := invoice.organizationId
        invoiceId := invoice.id
        amount := req.amount
        method := req.method
        reference := req.reference
        status := PaymentStatusCompleted
        paymentType := PaymentTypePayment
        salesReturnId := none
        notes := req.notes }
    let inv1 := { invoice with
      paidAmount := invoice.paidAmount + req.amount
      balanceAmount := invoice.balanceAmount - req.amount }
    let inv2 := { inv1 with status := inv1.calculateStatus }
    let soUpdate :=
      if inv2.status = InvoiceStatusPaid then
        invoice.salesOrderId.map (fun oid => (oid, SalesOrderStatusPaid))
      else none
    .ok { payment := payment
          invoice := inv2
          salesOrderStatusUpdate := soUpdate
          invoicePaidEventPublished := inv2.status = InvoiceStatusPaid }

/-- `PaymentService.VoidPayment`: flips the payment to VOID, reverses the
invoice paid/balance by the (signed) payment amount, re-derives status. -/
def PaymentService.voidPayment (payment : Payment) (invoice : Invoice)
    (notes : String) : Except String (Payment × Invoice) :=
  if ¬ payment.canVoid then
    .error ("payment in " ++ payment.status ++ " status cannot be voided")
  else
    let p1 := { payment with
      status := PaymentStatusVoid
      notes := payment.notes ++ "\n[VOIDED: " ++ notes ++ "]" }
    let inv1 := { invoice with
      paidAmount := invoice.paidAmount - payment.amount
      balanceAmount := invoice.balanceAmount + payment.amount }
    let inv2 := { inv1 with status := inv1.calculateStatus }
    .ok (p1, inv2)

/-! ## Invoice service (part of the application services file) -/

/-- One line of `dto.CreateInvoiceRequest`. -/
structure InvoiceItemRequest where
  itemId : Nat
  itemType : String
  name : String
  description : String
  quantity : Money
  unitPrice : Money
  discount : Money
  tax : Money
  metadata : Option String
  deriving Repr, DecidableEq

/-- `dto.CreateInvoiceRequest`, restricted to the fields the settlement
logic computes with. -/
structure CreateInvoiceRequest where
  customerId : Nat
  sourceSystem : String
  currency : String
  adjustment : Money
  exciseDuty : Money
  salesCommission : Money
  salesOrderId : Option Nat
  items : List InvoiceItemRequest
  deriving Repr, DecidableEq

/-- Item-name resolution in `CreateInvoice`: read-model hit wins, else the
caller-supplied name, else a generic placeholder derived from the id. -/
def resolveCreateItemName (rmItemName : Nat → Option String)
    (r : InvoiceItemRequest) : String :=
  match rmItemName r.itemId with
  | some n => n
  | none => if r.name = "" then "Item " ++ toString r.itemId else r.name

/-- Build one invoice line the way `CreateInvoice` / `UpdateInvoice` do. -/
def buildInvoiceItem (invoiceId : Nat) (name : String) (r : InvoiceItemRequest) :
    InvoiceItem :=
  { id := 0
    invoiceId := invoiceId
    itemId := r.itemId
    itemType := r.itemType
    name := name
    description := r.description
    quantity := r.quantity
    unitPrice := r.unitPrice
    discount := r.discount
    tax := r.tax
    total := r.quantity * r.unitPrice - r.discount + r.tax
    metadata := r.metadata }

/-- `InvoiceService.CreateInvoice`: builds a DRAFT invoice with no number,
accumulating sub/discount/tax totals over the request lines. -/
def InvoiceService.createInvoice (rmItemName : Nat → Option String) (orgId : Nat)
    (req : CreateInvoiceRequest) (invoiceId : Nat) : Invoice :=
  let items := req.items.map
    (fun r => buildInvoiceItem invoiceId (resolveCreateItemName rmItemName r) r)
  let subTotal := req.items.foldl (fun acc r => acc + r.quantity * r.unitPrice) 0
  let discountTotal := req.items.foldl (fun acc r => acc + r.discount) 0
  let taxTotal := req.items.foldl (fun acc r => acc + r.tax) 0
  let totalAmount := subTotal - discountTotal + taxTotal + req.adjustment + req.exciseDuty
  { id := invoiceId
    organizationId := orgId
    customerId := req.customerId
    invoiceNumber := none
    sourceSystem := if req.sourceSystem = "" then "MANUAL" else req.sourceSystem
    status := InvoiceStatusDraft
    subTotal := subTotal
    discountTotal := discountTotal
    taxTotal := taxTotal
    adjustment := req.adjustment
    exciseDuty := req.exciseDuty
    totalAmount := totalAmount
    paidAmount := 0
    balanceAmount := totalAmount
    pdfPath := none
    salesOrderId := req.salesOrderId
    items := items }

/-- Item-name resolution in `UpdateInvoice`: unlike `CreateInvoice`, a
read-model miss with no caller-supplied name is an error. -/
def resolveUpdateItems (rmItemName : Nat → Option String) (invoiceId : Nat) :
    List InvoiceItemRequest → Except String (List InvoiceItem)
  | [] => .ok []
  | r :: rest =>
      match rmItemName r.itemId with
      | none =>
          if r.name = "" then
            .error ("item " ++ toString r.itemId ++ " not found and no name provided")
          else do
            let tail ← resolveUpdateItems rmItemName invoiceId rest
            .ok (buildInvoiceItem invoiceId r.name r :: tail)
      | some n => do
          let tail ← resolveUpdateItems rmItemName invoiceId rest
          .ok (buildInvoiceItem invoiceId n r :: tail)

/-- `InvoiceService.UpdateInvoice`: DRAFT-only edit that replaces the line
items, recomputes totals, and sets `balance = total − paid`. -/
def InvoiceService.updateInvoice (rmItemName : Nat → Option String)
    (invoice : Invoice) (req : CreateInvoiceRequest) : Except String Invoice :=
  if ¬ invoice.canEdit then
    .error ("cannot edit invoice in " ++ invoice.status
      ++ " status - only DRAFT invoices can be edited")
  else
    match resolveUpdateItems rmItemName invoice.id req.items with
    | .error e => .error e
    | .ok items =>
        let subTotal := req.items.foldl (fun acc r => acc + r.quantity * r.unitPrice) 0
        let discountTotal := req.items.foldl (fun acc r => acc + r.discount) 0
        let taxTotal := req.items.foldl (fun acc r => acc + r.tax) 0
        let totalAmount :=
          subTotal - discountTotal + taxTotal + req.adjustment + req.exciseDuty
        .ok { invoice with
          adjustment := req.adjustment
          exciseDuty := req.exciseDuty
          items := items
          subTotal := subTotal
          discountTotal := discountTotal
          taxTotal := taxTotal
          totalAmount := totalAmount
          balanceAmount := totalAmount - invoice.paidAmount }

/-- `%04d` of `fmt.Sprintf("INV-%d-%04d", year, count+1)`. -/
def pad4 (n : Nat) : String :=
  if n < 10 then "000" ++ toString n
  else if n < 100 then "00" ++ toString n
  else if n < 1000 then "0" ++ toString n
  else toString n

/-- `InvoiceRepository.GetNextInvoiceNumber`: counts the organization's
invoices and formats `INV-<year>-<count+1>`. -/
def getNextInvoiceNumber (invoices : List Invoice) (orgId : Nat) (year : Nat) : String :=
  let count := (invoices.filter (fun i => i.organizationId = orgId)).length
  "INV-" ++ toString year ++ "-" ++ pad4 (count + 1)

/-- `InvoiceService.SendInvoice` over the store of persisted invoices:
DRAFT-only, assigns the next number for the organization, attaches the
rendered PDF path, transitions to SENT. On any error the store is
untouched (the Go code returns before `invoiceRepo.Update`). -/
def InvoiceService.sendInvoice (invoices : List Invoice) (id : Nat) (year : Nat)
    (pdfPath : String) : Except String (List Invoice) :=
  match invoices.find? (fun i => i.id = id) with
  | none => .error "invoice not found"
  | some invoice =>
      if ¬ invoice.canSend then
        .error ("cannot send invoice in " ++ invoice.status
          ++ " status - only DRAFT invoices can be sent")
      else
        let invNum := getNextInvoiceNumber invoices invoice.organizationId year
        let inv1 := { invoice with invoiceNumber := some invNum, pdfPath := some pdfPath }
        match inv1.canTransitionTo InvoiceStatusSent with
        | .error e => .error e
        | .ok _ =>
            let inv2 := { inv1 with status := InvoiceStatusSent }
            .ok (invoices.map (fun j => if j.id = id then inv2 else j))

/-! ## Sales order service (`CreateSalesOrder`)

The inventory collaborator is injected as data: the availability answer and
the post-persist stock-update outcome are parameters, so that the
fire-and-forget behaviour after persistence is expressible. -/

/-- One line of `dto.CreateSalesOrderRequest`. -/
structure SalesOrderItemRequest where
  itemId : Nat
  itemType : String
  name : String
  description : String
  quantity : Money
  unitPrice : Money
  discount : Money
  tax : Money
  metadata : Option String
  deriving Repr, DecidableEq

/-- `dto.CreateSalesOrderRequest`, restricted to the computed-with fields. -/
structure CreateSalesOrderRequest where
  organizationId : Nat
  customerId : Nat
  tdsAmount : Money
  tcsAmount : Money
  items : List SalesOrderItemRequest
  deriving Repr, DecidableEq

/-- One shortage reported by `CheckStockAvailability`. -/
structure StockShortage where
  itemId : Nat
  itemName : String
  requestedQuantity : Int
  availableQuantity : Int
  deriving Repr, DecidableEq

/-- The itemized shortage message built in `CreateSalesOrder`. -/
def shortageMessage (shortages : List StockShortage) : String :=
  shortages.foldl
    (fun acc u => acc ++ u.itemName ++ " (requested: " ++ toString u.requestedQuantity
      ++ ", available: " ++ toString u.availableQuantity ++ "), ")
    "stock unavailable for items: "

/-- What `CreateSalesOrder` left behind: the order handed to
`salesOrderRepo.Create` (if any), and the value/error returned to the caller. -/
structure CreateSalesOrderOutcome where
  persisted : Option SalesOrder
  result : Except String SalesOrder
  deriving Repr

/-- Build one sales-order line the way `CreateSalesOrder` does. -/
def buildSalesOrderItem (orderId : Nat) (r : SalesOrderItemRequest) : SalesOrderItem :=
  { id := 0
    salesOrderId := orderId
    itemId := r.itemId
    itemType := r.itemType
    name := r.name
    description := r.description
    quantity := r.quantity
    unitPrice := r.unitPrice
    discount := r.discount
    tax := r.tax
    total := r.quantity * r.unitPrice - r.discount + r.tax
    metadata := r.metadata }

/-- `SalesOrderService.CreateSalesOrder`: stock check (abort on failure or
shortage), build + totals + validate, persist, then a single post-persist
stock decrement whose failure returns an error to the caller WITHOUT rolling
the persisted order back. -/
def SalesOrderService.createSalesOrder (req : CreateSalesOrderRequest)
    (orderId : Nat) (hasInventoryClient : Bool)
    (stockCheckAnswer : Except String (List StockShortage))
    (stockUpdateError : Option String) : CreateSalesOrderOutcome :=
  let checkFails : Option String :=
    if hasInventoryClient ∧ req.items.length > 0 then
      match stockCheckAnswer with
      | .error e => some ("failed to check stock availability: " ++ e)
      | .ok unavailable =>
          if unavailable.length > 0 then some (shortageMessage unavailable) else none
    else none
  match checkFails with
  | some e => { persisted := none, result := .error e }
  | none =>
      let order0 : SalesOrder :=
        { id := orderId
          organizationId := req.organizationId
          customerId := req.customerId
          orderNumber := none
          status := SalesOrderStatusDraft
          subTotal := 0
          discountTotal := 0
          taxTotal := 0
          tdsAmount := req.tdsAmount
          tcsAmount := req.tcsAmount
          totalAmount := 0
          invoiceId := none
          shippedDate := none
          items := req.items.map (buildSalesOrderItem orderId) }
      let order := order0.calculateTotals
      match order.validate with
      | .error e => { persisted := none, result := .error ("validation failed: " ++ e) }
      | .ok _ =>
          if hasInventoryClient ∧ order.items.length > 0 then
            match stockUpdateError with
            | some e =>
                { persisted := some order
                  result := .error ("sales order created but failed to update stock: " ++ e) }
            | none => { persisted := some order, result := .ok order }
          else { persisted := some order, result := .ok order }

/-! ## Sales return service (`CreateSalesReturn`, `ProcessRefund`) -/

/-- One line of `dto.CreateSalesReturnRequest`. -/
structure SalesReturnItemRequest where
  salesOrderItemId : Nat
  returnedQuantity : Money
  unitPrice : Money
  tax : Money
  reason : String
  deriving Repr, DecidableEq

/-- `dto.CreateSalesReturnRequest`, restricted to the computed-with fields. -/
structure CreateSalesReturnRequest where
  organizationId : Nat
  salesOrderId : Nat
  returnReason : String
  notes : String
  items : List SalesReturnItemRequest
  deriving Repr, DecidableEq

/-- Build one sales-return line the way `CreateSalesReturn` does
(`total = returnedQuantity * unitPrice + tax`). -/
def buildSalesReturnItem (returnId : Nat) (r : SalesReturnItemRequest) : SalesReturnItem :=
  { id := 0
    salesReturnId := returnId
    salesOrderItemId := r.salesOrderItemId
    returnedQuantity := r.returnedQuantity
    unitPrice := r.unitPrice
    tax := r.tax
    total := r.returnedQuantity * r.unitPrice + r.tax
    reason := r.reason }

/-- `SalesReturnService.CreateSalesReturn`: order-returnability guard, item
build, totals, quantity validation against the order's items, business
validation, then number assignment + auto-approval. An `.error` result means
the Go code returned before `salesReturnRepo.Create` — nothing persisted. -/
def SalesReturnService.createSalesReturn (salesOrder : SalesOrder)
    (req : CreateSalesReturnRequest) (returnId : Nat) (returnNumber : String) :
    Except String SalesReturn :=
  if ¬ salesOrder.canReturn then
    .error "sales order must be paid and shipped to create a return"
  else
    let sr0 : SalesReturn :=
      { id := returnId
        organizationId := req.organizationId
        salesOrderId := req.salesOrderId
        returnNumber := none
        status := SalesReturnStatusDraft
        returnAmount := 0
        returnReason := req.returnReason
        notes := req.notes
        refundPaymentId := none
        items := req.items.map (buildSalesReturnItem returnId) }
    let sr := sr0.calculateTotals
    match sr.validateReturnQuantity salesOrder.items with
    | .error e => .error ("validation failed: " ++ e)
    | .ok _ =>
        match sr.validate with
        | .error e => .error ("validation failed: " ++ e)
        | .ok _ =>
            .ok { sr with
              returnNumber := some returnNumber
              status := SalesReturnStatusApproved }

/-- `dto.ProcessRefundRequest`, restricted to the computed-with fields. -/
structure ProcessRefundRequest where
  method : String
  reference : String
  notes : String
  deriving Repr, DecidableEq

/-- Everything `ProcessRefund` persists on success, plus the warnings it
merely logs (the post-persist stock increment failure ends up here). -/
structure ProcessRefundResult where
  refundPayment : Payment
  invoice : Invoice
  salesReturn : SalesReturn
  logs : List String
  deriving Repr, DecidableEq

/-- `SalesReturnService.ProcessRefund`: refundability guards, creates a
negative refund payment tied to the return, decreases invoice paid /
increases balance, transitions return to REFUNDED; a stock-update failure is
only logged and never fails the operation. `invoiceLookup` is the invoice
fetched via the order's invoice link (`none` = fetch failed). -/
def SalesReturnService.processRefund (salesReturn : SalesReturn)
    (salesOrder : SalesOrder) (invoiceLookup : Option Invoice)
    (req : ProcessRefundRequest) (paymentId : Nat)
    (stockUpdateError : Option String) : Except String ProcessRefundResult :=
  if ¬ salesReturn.canRefund then
    .error ("cannot process refund for sales return in " ++ salesReturn.status
      ++ " status or refund already processed")
  else
    match salesOrder.invoiceId with
    | none => .error "sales order has no associated invoice"
    | some _ =>
        match invoiceLookup with
        | none => .error "failed to find invoice"
        | some invoice =>
            if ¬ invoice.canRefund then
              .error "invoice must be paid to process refund"
            else
              let refundPayment : Payment :=
                { id := paymentId
                  organizationId := salesReturn.organizationId
                  invoiceId := invoice.id
                  amount := -salesReturn.returnAmount
                  method := req.method
                  reference := req.reference
                  status := PaymentStatusCompleted
                  paymentType := PaymentTypeRefund
                  salesReturnId := some salesReturn.id
                  notes := req.notes }
              let inv1 := { invoice with
                paidAmount := invoice.paidAmount - salesReturn.returnAmount
                balanceAmount := invoice.balanceAmount + salesReturn.returnAmount }
              match salesReturn.canTransitionTo SalesReturnStatusRefunded with
              | .error e => .error e
              | .ok _ =>
                  let sr2 := { salesReturn with
                    status := SalesReturnStatusRefunded
                    refundPaymentId := some refundPayment.id }
                  let logs :=
                    match stockUpdateError with
                    | some e => ["sales return refunded but failed to update stock: " ++ e]
                    | none => []
                  .ok { refundPayment := refundPayment
                        invoice := inv1
                        salesReturn := sr2
                        logs := logs }

/-! ## Event projector (`internal/adapters/inbound/kafka/handler.go`,
`handler_invoice.go`)

The read-model store is a key-indexed map; the `OnConflict{UpdateAll:true}`
write of the "created" handlers is a full upsert. Payload unmarshalling is
left to the bus layer: a handler receives the already-decoded payload. -/

/-- A read-model table keyed by the upstream entity's id. -/
def RMStore (α : Type) := Nat → Option α

/-- `tx.Clauses(clause.OnConflict{UpdateAll:true}).Create(&rm)`: insert, or
overwrite all columns on conflict. -/
def RMStore.upsert {α : Type} (s : RMStore α) (key : Nat) (v : α) : RMStore α :=
  fun k => if k = key then some v else s k

/-- `domain.CustomerRM`, the read-model customer replica row. -/
structure CustomerRM where
  id : Nat
  organizationId : Nat
  displayName : String
  companyName : String
  email : String
  phone : String
  billingStreet : String
  billingCity : String
  billingState : String
  billingCode : String
  billingCountry : String
  updatedAt : Nat
  deriving Repr, DecidableEq

/-- `shared_events.CustomerCreatedPayload` (ids already parsed). -/
structure CustomerCreatedPayload where
  customerId : Nat
  organizationId : Nat
  displayName : String
  companyName : String
  firstName : String
  lastName : String
  email : String
  phone : String
  street1 : String
  city : String
  state : String
  zipCode : String
  country : String
  deriving Repr, DecidableEq

/-- The display-name fallback in `handleCustomerEvent` / CustomerCreated:
explicit display name, else company name, overridden by "first last" when
either name part is present, else a placeholder. -/
def customerCreatedDisplayName (p : CustomerCreatedPayload) : String :=
  let dn :=
    if p.displayName = "" then
      let dn1 := p.companyName
      if p.firstName ≠ "" ∨ p.lastName ≠ "" then (p.firstName ++ " " ++ p.lastName).trim
      else dn1
    else p.displayName
  if dn = "" then "Unknown Customer" else dn

/-- The row `handleCustomerEvent` builds for a CustomerCreated event. -/
def customerRMofCreated (p : CustomerCreatedPayload) (occurredAt : Nat) : CustomerRM :=
  { id := p.customerId
    organizationId := p.organizationId
    displayName := customerCreatedDisplayName p
    companyName := p.companyName
    email := p.email
    phone := p.phone
    billingStreet := p.street1
    billingCity := p.city
    billingState := p.state
    billingCode := p.zipCode
    billingCountry := p.country
    updatedAt := occurredAt }

/-- `EventHandler.handleCustomerEvent`, CustomerCreated branch: full upsert. -/
def EventHandler.handleCustomerCreated (s : RMStore CustomerRM)
    (p : CustomerCreatedPayload) (occurredAt : Nat) : RMStore CustomerRM :=
  s.upsert p.customerId (customerRMofCreated p occurredAt)

/-- `domain.ItemRM`, the read-model item replica row. -/
structure ItemRM where
  id : Nat
  organizationId : Nat
  sku : String
  name : String
  description : String
  itemType : String
  status : String
  sellingPrice : Money
  costPrice : Money
  currency : String
  unit : String
  quantityOnHand : Money
  quantityAvailable : Money
  quantityReserved : Money
  quantityDamaged : Money
  reorderLevel : Money
  reorderQuantity : Money
  trackInventory : Bool
  taxable : Bool
  taxRate : Money
  updatedAt : Nat
  deriving Repr, DecidableEq

/-- The `SalesInfo` map of `ItemCreatedPayload`: each Go type assertion
`v, ok := m[k].(T)` becomes an optional field. -/
structure ItemSalesInfo where
  sellingPrice : Option Money
  rate : Option Money
  sellingCurrency : Option String
  taxable : Option Bool
  taxRate : Option Money
  description : Option String
  deriving Repr, DecidableEq

/-- The `PurchaseInfo` map of `ItemCreatedPayload`. -/
structure ItemPurchaseInfo where
  costPrice : Option Money
  costCurrency : Option String
  deriving Repr, DecidableEq

/-- The `InventoryInfo` map of `ItemCreatedPayload`. -/
structure ItemInventoryInfo where
  quantityOnHand : Option Money
  quantityAvailable : Option Money
  quantityReserved : Option Money
  quantityDamaged : Option Money
  reorderLevel : Option Money
  reorderQuantity : Option Money
  trackInventory : Option Bool
  deriving Repr, DecidableEq

/-- `shared_events.ItemCreatedPayload` (ids already parsed). -/
structure ItemCreatedPayload where
  itemId : Nat
  organizationId : Nat
  sku : String
  name : String
  status : String
  typ : String
  salesInfo : Option ItemSalesInfo
  purchaseInfo : Option ItemPurchaseInfo
  inventoryInfo : Option ItemInventoryInfo
  deriving Repr, DecidableEq

/-- The row `handleItemEvent` builds for an ItemCreated event, mirroring the
field-by-field extraction (selling price falls back to `rate` when zero,
currency falls back from sales to purchase info, `unit` is never set). -/
def itemRMofCreated (p : ItemCreatedPayload) (occurredAt : Nat) : ItemRM :=
  let itemType :=
    if p.typ = "service" then "service"
    else if p.typ = "goods" then "goods"
    else "part"
  let sp0 := match p.salesInfo with
    | some si => si.sellingPrice.getD 0
    | none => 0
  let sellingPrice := match p.salesInfo with
    | some si =>
        match si.rate with
        | some v => if sp0 = 0 then v else sp0
        | none => sp0
    | none => sp0
  let currencySales := match p.salesInfo with
    | some si => si.sellingCurrency.getD ""
    | none => ""
  let currency := match p.purchaseInfo with
    | some pi => if currencySales = "" then pi.costCurrency.getD "" else currencySales
    | none => currencySales
  let taxable := match p.salesInfo with
    | some si => si.taxable.getD false
    | none => false
  let taxRate := match p.salesInfo with
    | some si => si.taxRate.getD 0
    | none => 0
  let costPrice := match p.purchaseInfo with
    | some pi => pi.costPrice.getD 0
    | none => 0
  let inv := p.inventoryInfo
  let description := match p.salesInfo with
    | some si => si.description.getD ""
    | none => ""
  { id := p.itemId
    organizationId := p.organizationId
    sku := p.sku
    name := p.name
    description := description
    itemType := itemType
    status := p.status
    sellingPrice := sellingPrice
    costPrice := costPrice
    currency := currency
    unit := ""
    quantityOnHand := (inv.bind (·.quantityOnHand)).getD 0
    quantityAvailable := (inv.bind (·.quantityAvailable)).getD 0
    quantityReserved := (inv.bind (·.quantityReserved)).getD 0
    quantityDamaged := (inv.bind (·.quantityDamaged)).getD 0
    reorderLevel := (inv.bind (·.reorderLevel)).getD 0
    reorderQuantity := (inv.bind (·.reorderQuantity)).getD 0
    trackInventory := (inv.bind (·.trackInventory)).getD false
    taxable := taxable
    taxRate := taxRate
    updatedAt := occurredAt }

/-- `EventHandler.handleItemEvent`, ItemCreated branch: full upsert. -/
def EventHandler.handleItemCreated (s : RMStore ItemRM)
    (p : ItemCreatedPayload) (occurredAt : Nat) : RMStore ItemRM :=
  s.upsert p.itemId (itemRMofCreated p occurredAt)

/-- The raw status write of `handleInvoiceEvent` / billing.invoice.paid on one
order row: `UPDATE sales_orders SET status = 'paid' WHERE invoice_id = ?`. -/
def applySalesOrderPaid (invoiceId : Nat) (so : SalesOrder) : SalesOrder :=
  if so.invoiceId = some invoiceId then { so with status := SalesOrderStatusPaid } else so

/-- `EventHandler.handleInvoiceEvent`, billing.invoice.paid branch, over the
store of sales orders. -/
def EventHandler.handleInvoicePaid (orders : List SalesOrder) (invoiceId : Nat) :
    List SalesOrder :=
  orders.map (applySalesOrderPaid invoiceId)

/-! ## Specification-side tables for the transition claims -/

/-- The invoice statuses that are keys of the transition table. -/
def invoiceKnownStatuses : List String :=
  [InvoiceStatusDraft, InvoiceStatusSent, InvoiceStatusPaid,
   InvoiceStatusOverdue, InvoiceStatusVoid]

/-- The fixed adjacency table of the spec, flattened to pairs:
draft→{sent, void}, sent→{paid, overdue, void}, overdue→{paid, void},
paid→{void}, void→{}. -/
def invoiceAllowedPairs : List (String × String) :=
  [(InvoiceStatusDraft, InvoiceStatusSent), (InvoiceStatusDraft, InvoiceStatusVoid),
   (InvoiceStatusSent, InvoiceStatusPaid), (InvoiceStatusSent, InvoiceStatusOverdue),
   (InvoiceStatusSent, InvoiceStatusVoid),
   (InvoiceStatusOverdue, InvoiceStatusPaid), (InvoiceStatusOverdue, InvoiceStatusVoid),
   (InvoiceStatusPaid, InvoiceStatusVoid)]

end Billing

open Billing

/-- **C5.** For every invoice and every target status, `CanTransitionTo`
succeeds exactly when the (current, target) pair is in the fixed adjacency
table draft→{sent, void}, sent→{paid, overdue, void}, overdue→{paid, void},
paid→{void}, void→{}; any other pair with a recognized current status fails
with the state-conflict error "cannot transition from X to Y", and an
unrecognized current status is a hard error. -/
theorem invoice_canTransitionTo_matches_adjacency_table
    (i : Invoice) (t : String) :
    (i.canTransitionTo t = .ok () ↔ (i.status, t) ∈ invoiceAllowedPairs)
    ∧ (i.status ∈ invoiceKnownStatuses → (i.status, t) ∉ invoiceAllowedPairs →
        i.canTransitionTo t = .error ("cannot transition from " ++ i.status ++ " to " ++ t))
    ∧ (i.status ∉ invoiceKnownStatuses →
        i.canTransitionTo t = .error ("unknown current status: " ++ i.status)) := by
  by_cases h1 : i.status = "draft"
  · simp [Invoice.canTransitionTo, invoiceValidTransitions, h1, invoiceAllowedPairs,
      invoiceKnownStatuses, InvoiceStatusDraft, InvoiceStatusSent, InvoiceStatusPaid,
      InvoiceStatusOverdue, InvoiceStatusVoid]
    tauto
  · by_cases h2 : i.status = "sent"
    · simp [Invoice.canTransitionTo, invoiceValidTransitions, h2, invoiceAllowedPairs,
        invoiceKnownStatuses, InvoiceStatusDraft, InvoiceStatusSent, InvoiceStatusPaid,
        InvoiceStatusOverdue, InvoiceStatusVoid]
      tauto
    · by_cases h3 : i.status = "overdue"
      · simp [Invoice.canTransitionTo, invoiceValidTransitions, h1, h2, h3,
          invoiceAllowedPairs, invoiceKnownStatuses, InvoiceStatusDraft, InvoiceStatusSent,
          InvoiceStatusPaid, InvoiceStatusOverdue, InvoiceStatusVoid]
        tauto
      · by_cases h4 : i.status = "paid"
        · simp [Invoice.canTransitionTo, invoiceValidTransitions, h1, h2, h3, h4,
            invoiceAllowedPairs, invoiceKnownStatuses, InvoiceStatusDraft, InvoiceStatusSent,
            InvoiceStatusPaid, InvoiceStatusOverdue, InvoiceStatusVoid]
        · by_cases h5 : i.status = "void"
          · simp [Invoice.canTransitionTo, invoiceValidTransitions, h1, h2, h3, h4, h5,
              invoiceAllowedPairs, invoiceKnownStatuses, InvoiceStatusDraft,
              InvoiceStatusSent, InvoiceStatusPaid, InvoiceStatusOverdue,
              InvoiceStatusVoid]
          · simp [Invoice.canTransitionTo, invoiceValidTransitions, h1, h2, h3, h4, h5,
              invoiceAllowedPairs, invoiceKnownStatuses, InvoiceStatusDraft,
              InvoiceStatusSent, InvoiceStatusPaid, InvoiceStatusOverdue,
              InvoiceStatusVoid]

/-! ## Shared concrete entities for witnesses -/

/-- A concrete SENT invoice with balance 100, linked to sales order 77. -/
def exInvoiceSent : Invoice :=
  { id := 10, organizationId := 1, customerId := 2
    invoiceNumber := some "INV-2023-0001", sourceSystem := "MANUAL"
    status := InvoiceStatusSent
    subTotal := 100, discountTotal := 0, taxTotal := 0
    adjustment := 0, exciseDuty := 0
    totalAmount := 100, paidAmount := 0, balanceAmount := 100
    pdfPath := none, salesOrderId := some 77, items := [] }

/-- A concrete fully-paid invoice (total 100, paid 100, balance 0). -/
def exInvoicePaid : Invoice :=
  { exInvoiceSent with status := InvoiceStatusPaid, paidAmount := 100, balanceAmount := 0 }

/-- A concrete DRAFT invoice in organization 1. -/
def exInvoiceDraft : Invoice :=
  { exInvoiceSent with id := 1, invoiceNumber := none, status := InvoiceStatusDraft }

/-- A second concrete DRAFT invoice in the same organization. -/
def exInvoiceDraft2 : Invoice :=
  { exInvoiceDraft with id := 2 }

/-- A concrete completed payment of 100 against `exInvoicePaid`. -/
def exPaymentCompleted : Payment :=
  { id := 5, organizationId := 1, invoiceId := 10, amount := 100
    method := "cash", reference := "r", status := PaymentStatusCompleted
    paymentType := PaymentTypePayment, salesReturnId := none, notes := "" }

/-- A concrete payment request of 100 against invoice 10. -/
def exPaymentRequest : RecordPaymentRequest :=
  { invoiceId := 10, amount := 100, method := "cash", reference := "r", notes := "" }

/-- **C2.** Recording a payment of amount A (0 < A ≤ B) on a sent invoice with
balance B succeeds, reduces the balance to B − A and increases the paid amount
by A; if the resulting balance is exactly zero (the new paid amount being
positive) the status becomes paid, while a partial payment leaves the status
sent. -/
theorem recordPayment_on_sent_invoice (i : Invoice) (req : RecordPaymentRequest)
    (pid : Nat) (hsent : i.status = InvoiceStatusSent) (hpos : 0 < req.amount)
    (hle : req.amount ≤ i.balanceAmount) (hpaid : 0 ≤ i.paidAmount) :
    ∃ r, PaymentService.recordPayment i req pid = .ok r
      ∧ r.invoice.balanceAmount = i.balanceAmount - req.amount
      ∧ r.invoice.paidAmount = i.paidAmount + req.amount
      ∧ (i.balanceAmount - req.amount = 0 → r.invoice.status = InvoiceStatusPaid)
      ∧ (i.balanceAmount - req.amount ≠ 0 → r.invoice.status = InvoiceStatusSent) := by
  have hnle : ¬ req.amount ≤ 0 := not_le.mpr hpos
  have hnover : ¬ req.amount > i.balanceAmount + paymentEpsilon := by
    have : (0 : ℚ) < paymentEpsilon := by norm_num [paymentEpsilon]
    push_neg
    linarith
  rcases hres : PaymentService.recordPayment i req pid with e | r
  · exfalso
    simp [PaymentService.recordPayment, Invoice.canReceivePayment, hsent, hnle, hnover]
      at hres
  · simp only [PaymentService.recordPayment, Invoice.canReceivePayment, hsent, hnle,
      hnover, decide_eq_true_eq, not_true_eq_false, if_false, if_neg hnle,
      if_neg hnover, Except.ok.injEq] at hres
    subst hres
    refine ⟨_, rfl, rfl, rfl, ?_, ?_⟩
    · intro hzero
      have hppos : i.paidAmount + req.amount > 0 := by linarith
      simp [Invoice.calculateStatus, hzero, hppos]
    · intro hnz
      simp [Invoice.calculateStatus, hsent]
      intro hzero
      exact absurd hzero hnz

/-- **C2 witness:** paying the full balance 100 on the concrete sent invoice
drives the balance to 0 and the status to paid. -/
theorem recordPayment_on_sent_invoice_witness :
    ∃ r, PaymentService.recordPayment exInvoiceSent exPaymentRequest 5 = .ok r
      ∧ r.invoice.balanceAmount = exInvoiceSent.balanceAmount - exPaymentRequest.amount
      ∧ r.invoice.paidAmount = exInvoiceSent.paidAmount + exPaymentRequest.amount
      ∧ (exInvoiceSent.balanceAmount - exPaymentRequest.amount = 0 →
          r.invoice.status = InvoiceStatusPaid)
      ∧ (exInvoiceSent.balanceAmount - exPaymentRequest.amount ≠ 0 →
          r.invoice.status = InvoiceStatusSent) :=
  recordPayment_on_sent_invoice exInvoiceSent exPaymentRequest 5
    (by rfl) (by norm_num [exPaymentRequest]) (by norm_num [exPaymentRequest, exInvoiceSent])
    (by norm_num [exInvoiceSent])

/-- **C3.** `RecordPayment` fails (returning an error, hence creating no
payment and handing no updated invoice to the repository) exactly when the
invoice is not in sent status, or the amount is ≤ 0, or the amount exceeds the
invoice balance plus the fixed rounding tolerance 0.01. -/
theorem recordPayment_failure_conditions (i : Invoice) (req : RecordPaymentRequest)
    (pid : Nat) :
    (∃ e, PaymentService.recordPayment i req pid = .error e) ↔
      (i.status ≠ InvoiceStatusSent ∨ req.amount ≤ 0 ∨
        req.amount > i.balanceAmount + paymentEpsilon) := by
  by_cases h1 : i.status = InvoiceStatusSent
  · by_cases h2 : req.amount ≤ 0
    · simp [PaymentService.recordPayment, Invoice.canReceivePayment, h1, h2]
    · by_cases h3 : req.amount > i.balanceAmount + paymentEpsilon
      · simp [PaymentService.recordPayment, Invoice.canReceivePayment, h1, h2, h3]
      · simp [PaymentService.recordPayment, Invoice.canReceivePayment, h1, h2, h3]
  · simp [PaymentService.recordPayment, Invoice.canReceivePayment, h1]

/-- **C10.** `CalculateStatus` is the identity on the stored status except
that it returns paid when the balance is 0 and the paid amount positive; it
never moves a status away from paid; and voiding a completed positive payment
on a fully-paid invoice decreases the paid amount and increases the balance
while the status stays paid despite the now-positive balance. -/
theorem calculateStatus_identity_except_fully_paid :
    (∀ i : Invoice, i.balanceAmount = 0 → i.paidAmount > 0 →
      i.calculateStatus = InvoiceStatusPaid)
    ∧ (∀ i : Invoice, ¬ (i.balanceAmount = 0 ∧ i.paidAmount > 0) →
        i.calculateStatus = i.status)
    ∧ (∀ i : Invoice, i.status = InvoiceStatusPaid →
        i.calculateStatus = InvoiceStatusPaid)
    ∧ (∀ (p : Payment) (i : Invoice) (notes : String),
        p.status = PaymentStatusCompleted → p.amount > 0 →
        i.status = InvoiceStatusPaid → i.balanceAmount = 0 →
        ∃ p2 i2, PaymentService.voidPayment p i notes = .ok (p2, i2)
          ∧ i2.paidAmount = i.paidAmount - p.amount
          ∧ i2.balanceAmount = p.amount
          ∧ i2.balanceAmount > 0
          ∧ i2.status = InvoiceStatusPaid) := by
  refine ⟨?_, ?_, ?_, ?_⟩
  · intro i h1 h2
    simp [Invoice.calculateStatus, h1, h2]
  · intro i h
    simp only [Invoice.calculateStatus, if_neg h]
  · intro i h
    by_cases hc : i.balanceAmount = 0 ∧ i.paidAmount > 0
    · simp [Invoice.calculateStatus, hc]
    · simp [Invoice.calculateStatus, hc, h]
  · intro p i notes hst hamt hist hbal
    rcases hres : PaymentService.voidPayment p i notes with e | pr
    · exfalso
      simp [PaymentService.voidPayment, Payment.canVoid, hst] at hres
    · simp only [PaymentService.voidPayment, Payment.canVoid, hst, decide_eq_true_eq,
        not_true_eq_false, if_false, Except.ok.injEq] at hres
      subst hres
      refine ⟨_, _, rfl, rfl, by simp [hbal], by simp [hbal]; exact hamt, ?_⟩
      have hnz : ¬ (i.balanceAmount + p.amount = 0 ∧ i.paidAmount - p.amount > 0) := by
        intro hcon
        have := hcon.1
        rw [hbal] at this
        linarith
      simp only [Invoice.calculateStatus]
      rw [if_neg hnz]
      exact hist

/-- **C10 witness:** voiding the concrete completed 100-payment on the
concrete fully-paid invoice leaves the status paid with balance 100. -/
theorem calculateStatus_identity_witness :
    ∃ p2 i2, PaymentService.voidPayment exPaymentCompleted exInvoicePaid "oops" = .ok (p2, i2)
      ∧ i2.paidAmount = exInvoicePaid.paidAmount - exPaymentCompleted.amount
      ∧ i2.balanceAmount = exPaymentCompleted.amount
      ∧ i2.balanceAmount > 0
      ∧ i2.status = InvoiceStatusPaid :=
  calculateStatus_identity_except_fully_paid.2.2.2 exPaymentCompleted exInvoicePaid "oops"
    (by rfl) (by norm_num [exPaymentCompleted]) (by rfl) (by norm_num [exInvoicePaid])

/-- **C5 witness:** draft→paid on the concrete draft invoice fails with the
state-conflict error. -/
theorem invoice_canTransitionTo_witness :
    exInvoiceDraft.canTransitionTo InvoiceStatusPaid =
      .error ("cannot transition from " ++ exInvoiceDraft.status ++ " to " ++ InvoiceStatusPaid) :=
  (invoice_canTransitionTo_matches_adjacency_table exInvoiceDraft InvoiceStatusPaid).2.1
    (by simp [exInvoiceDraft, exInvoiceSent, invoiceKnownStatuses, InvoiceStatusDraft])
    (by simp [exInvoiceDraft, exInvoiceSent, invoiceAllowedPairs, InvoiceStatusDraft,
      InvoiceStatusSent, InvoiceStatusPaid, InvoiceStatusOverdue, InvoiceStatusVoid])

/-- **C1.** After each core mutating operation the invoice satisfies
`balance == total − paid` exactly: `CreateInvoice` and `UpdateInvoice`
establish it outright, and `RecordPayment`, `VoidPayment` and `ProcessRefund`
preserve it. -/
theorem balance_equals_total_minus_paid :
    (∀ (rm : Nat → Option String) (orgId : Nat) (req : CreateInvoiceRequest) (iid : Nat),
      (InvoiceService.createInvoice rm orgId req iid).balanceAmount
        = (InvoiceService.createInvoice rm orgId req iid).totalAmount
          - (InvoiceService.createInvoice rm orgId req iid).paidAmount)
    ∧ (∀ (rm : Nat → Option String) (i : Invoice) (req : CreateInvoiceRequest) (i2 : Invoice),
        InvoiceService.updateInvoice rm i req = .ok i2 →
        i2.balanceAmount = i2.totalAmount - i2.paidAmount)
    ∧ (∀ (i : Invoice) (req : RecordPaymentRequest) (pid : Nat) (r : RecordPaymentResult),
        i.balanceAmount = i.totalAmount - i.paidAmount →
        PaymentService.recordPayment i req pid = .ok r →
        r.invoice.balanceAmount = r.invoice.totalAmount - r.invoice.paidAmount)
    ∧ (∀ (p : Payment) (i : Invoice) (notes : String) (p2 : Payment) (i2 : Invoice),
        i.balanceAmount = i.totalAmount - i.paidAmount →
        PaymentService.voidPayment p i notes = .ok (p2, i2) →
        i2.balanceAmount = i2.totalAmount - i2.paidAmount)
    ∧ (∀ (sr : SalesReturn) (so : SalesOrder) (invOpt : Option Invoice)
        (req : ProcessRefundRequest) (pid : Nat) (serr : Option String)
        (r : ProcessRefundResult),
        (∀ inv, invOpt = some inv → inv.balanceAmount = inv.totalAmount - inv.paidAmount) →
        SalesReturnService.processRefund sr so invOpt req pid serr = .ok r →
        r.invoice.balanceAmount = r.invoice.totalAmount - r.invoice.paidAmount) := by
  refine ⟨?_, ?_, ?_, ?_, ?_⟩
  · intro rm orgId req iid
    simp [InvoiceService.createInvoice]
  · intro rm i req i2 hok
    unfold InvoiceService.updateInvoice at hok
    split at hok
    · exact absurd hok (by simp)
    · rcases hitems : resolveUpdateItems rm i.id req.items with e | items <;> rw [hitems] at hok
      · exact absurd hok (by simp)
      · simp only [Except.ok.injEq] at hok
        subst hok
        simp
  · intro i req pid r hinv hok
    unfold PaymentService.recordPayment at hok
    split at hok
    · exact absurd hok (by simp)
    · split at hok
      · exact absurd hok (by simp)
      · split at hok
        · exact absurd hok (by simp)
        · simp only [Except.ok.injEq] at hok
          subst hok
          simp
          linarith
  · intro p i notes p2 i2 hinv hok
    unfold PaymentService.voidPayment at hok
    split at hok
    · exact absurd hok (by simp)
    · simp only [Except.ok.injEq, Prod.mk.injEq] at hok
      obtain ⟨_, hok2⟩ := hok
      subst hok2
      simp
      linarith
  · intro sr so invOpt req pid serr r hinv hok
    unfold SalesReturnService.processRefund at hok
    split at hok
    · exact absurd hok (by simp)
    · split at hok
      · exact absurd hok (by simp)
      · split at hok
        · exact absurd hok (by simp)
        · rename_i inv2
          have hi := hinv inv2 rfl
          split at hok
          · exact absurd hok (by simp)
          · split at hok
            · exact absurd hok (by simp)
            · simp only [Except.ok.injEq] at hok
              subst hok
              simp
              linarith

/-- **C1 witness:** recording the concrete full payment preserves the balance
invariant on the concrete sent invoice. -/
theorem balance_equals_total_minus_paid_witness :
    ∀ r, PaymentService.recordPayment exInvoiceSent exPaymentRequest 5 = .ok r →
      r.invoice.balanceAmount = r.invoice.totalAmount - r.invoice.paidAmount :=
  fun r hok =>
    balance_equals_total_minus_paid.2.2.1 exInvoiceSent exPaymentRequest 5 r
      (by norm_num [exInvoiceSent]) hok

/-- **C9.** Applying a "created" projector handler twice with the identical
event leaves the read-model row (and the whole store) in the same state as
applying it once: the handler is a full upsert keyed by the upstream id. -/
theorem created_event_projection_idempotent :
    (∀ (s : RMStore CustomerRM) (p : CustomerCreatedPayload) (t : Nat),
      EventHandler.handleCustomerCreated (EventHandler.handleCustomerCreated s p t) p t
        = EventHandler.handleCustomerCreated s p t)
    ∧ (∀ (s : RMStore ItemRM) (p : ItemCreatedPayload) (t : Nat),
      EventHandler.handleItemCreated (EventHandler.handleItemCreated s p t) p t
        = EventHandler.handleItemCreated s p t) := by
  constructor
  · intro s p t
    funext k
    simp only [EventHandler.handleCustomerCreated, RMStore.upsert]
    split <;> rfl
  · intro s p t
    funext k
    simp only [EventHandler.handleItemCreated, RMStore.upsert]
    split <;> rfl

/-- **C7.** When a recorded payment makes an invoice fully paid and the
invoice is linked to a sales order, the order's status is set to paid both by
the direct update inside `RecordPayment` and by the same-service
billing.invoice.paid event handler — a raw status write that bypasses the
sales-order transition table (it applies even from a status such as shipped,
from which `CanTransitionTo(paid)` is a state-conflict error). -/
theorem invoice_paid_directly_updates_linked_sales_order :
    (∀ (i : Invoice) (req : RecordPaymentRequest) (pid oid : Nat),
      i.status = InvoiceStatusSent → i.salesOrderId = some oid →
      0 ≤ i.paidAmount → req.amount = i.balanceAmount → 0 < req.amount →
      ∃ r, PaymentService.recordPayment i req pid = .ok r
        ∧ r.invoice.status = InvoiceStatusPaid
        ∧ r.salesOrderStatusUpdate = some (oid, SalesOrderStatusPaid)
        ∧ r.invoicePaidEventPublished = true)
    ∧ (∀ (orders : List SalesOrder) (iid : Nat) (so : SalesOrder),
        so ∈ orders → so.invoiceId = some iid →
        { so with status := SalesOrderStatusPaid } ∈ EventHandler.handleInvoicePaid orders iid)
    ∧ (∀ (so : SalesOrder) (iid : Nat), so.invoiceId = some iid →
        so.status = SalesOrderStatusShipped →
        so.canTransitionTo SalesOrderStatusPaid
            = .error ("cannot transition from " ++ so.status ++ " to " ++ SalesOrderStatusPaid)
          ∧ (applySalesOrderPaid iid so).status = SalesOrderStatusPaid) := by
  refine ⟨?_, ?_, ?_⟩
  · intro i req pid oid hsent hlink hpaid hfull hpos
    have hnle : ¬ req.amount ≤ 0 := not_le.mpr hpos
    have hnover : ¬ req.amount > i.balanceAmount + paymentEpsilon := by
      have : (0 : ℚ) < paymentEpsilon := by norm_num [paymentEpsilon]
      push_neg
      linarith
    rcases hres : PaymentService.recordPayment i req pid with e | r
    · exfalso
      simp [PaymentService.recordPayment, Invoice.canReceivePayment, hsent, hnle, hnover]
        at hres
    · simp only [PaymentService.recordPayment, Invoice.canReceivePayment, hsent,
        decide_eq_true_eq, not_true_eq_false, if_false, if_neg hnle, if_neg hnover,
        Except.ok.injEq] at hres
      subst hres
      have hzero : i.balanceAmount - req.amount = 0 := by rw [hfull]; ring
      have hppos : i.paidAmount + req.amount > 0 := by linarith
      refine ⟨_, rfl, ?_, ?_, ?_⟩
      · simp [Invoice.calculateStatus, hzero, hppos]
      · simp [Invoice.calculateStatus, hzero, hppos, hlink]
      · simp [Invoice.calculateStatus, hzero, hppos]
  · intro orders iid so hmem hlink
    have : applySalesOrderPaid iid so = { so with status := SalesOrderStatusPaid } := by
      simp [applySalesOrderPaid, hlink]
    exact this ▸ List.mem_map_of_mem (applySalesOrderPaid iid) hmem
  · intro so iid hlink hshipped
    constructor
    · simp [SalesOrder.canTransitionTo, salesOrderValidTransitions, hshipped,
        SalesOrderStatusShipped, SalesOrderStatusDraft, SalesOrderStatusConfirmed,
        SalesOrderStatusInvoiced, SalesOrderStatusPartiallyPaid, SalesOrderStatusPaid,
        SalesOrderStatusCompleted, SalesOrderStatusCancelled]
    · simp [applySalesOrderPaid, hlink]

/-- **C7 witness:** the concrete full payment on the sent invoice linked to
order 77 yields the direct order-status write (77, paid). -/
theorem invoice_paid_directly_updates_witness :
    ∃ r, PaymentService.recordPayment exInvoiceSent exPaymentRequest 5 = .ok r
      ∧ r.invoice.status = InvoiceStatusPaid
      ∧ r.salesOrderStatusUpdate = some (77, SalesOrderStatusPaid)
      ∧ r.invoicePaidEventPublished = true :=
  invoice_paid_directly_updates_linked_sales_order.1 exInvoiceSent exPaymentRequest 5 77
    (by rfl) (by rfl) (by norm_num [exInvoiceSent])
    (by norm_num [exPaymentRequest, exInvoiceSent]) (by norm_num [exPaymentRequest])

/-- A return line is "bad" when it references an unknown order line or returns
more than the original quantity (the two conditions of claim C6). -/
def badReturnLine (orig : List SalesOrderItem) (soItemId : Nat) (qty : Money) : Prop :=
  originalQtyLookup orig soItemId = none
    ∨ ∃ q, originalQtyLookup orig soItemId = some q ∧ qty > q

/-- The per-item validation loop errors whenever some line is bad (possibly
reporting an earlier offending line first). -/
theorem validateReturnItems_error_of_bad (orig : List SalesOrderItem) :
    ∀ (items : List SalesReturnItem) (k : Nat),
    (∃ it ∈ items, badReturnLine orig it.salesOrderItemId it.returnedQuantity) →
    ∃ e, validateReturnItems orig items k = .error e := by
  intro items
  induction items with
  | nil =>
      intro k h
      simp at h
  | cons hd tl ih =>
      intro k h
      rcases hlook : originalQtyLookup orig hd.salesOrderItemId with _ | q
      · exact ⟨"item " ++ toString k ++ ": sales order item not found",
          by simp [validateReturnItems, hlook]⟩
      · by_cases hq0 : hd.returnedQuantity ≤ 0
        · exact ⟨"item " ++ toString k ++ ": returned quantity must be greater than 0",
            by simp [validateReturnItems, hlook, hq0]⟩
        · by_cases hqg : hd.returnedQuantity > q
          · exact ⟨"item " ++ toString k ++ ": returned quantity exceeds original quantity",
              by simp [validateReturnItems, hlook, hq0, hqg]⟩
          · have htl : ∃ it ∈ tl, badReturnLine orig it.salesOrderItemId it.returnedQuantity := by
              rcases h with ⟨it, hmem, hbadit⟩
              rcases List.mem_cons.mp hmem with rfl | hmem2
              · exfalso
                rcases hbadit with hnone | ⟨q2, hq2, hgt⟩
                · rw [hlook] at hnone
                  exact Option.noConfusion hnone
                · rw [hlook] at hq2
                  obtain rfl : q = q2 := Option.some.inj hq2
                  exact hqg hgt
              · exact ⟨it, hmem2, hbadit⟩
            obtain ⟨e, he⟩ := ih (k + 1) htl
            exact ⟨e, by simp [validateReturnItems, hlook, hq0, hqg, he]⟩

/-- **C6.** A create-sales-return request in which some line returns more than
the source order line's quantity or references an unknown order-line id is
rejected as a whole: `CreateSalesReturn` errors before number generation,
persistence or any money movement. -/
theorem createSalesReturn_rejects_invalid_quantities (so : SalesOrder)
    (req : CreateSalesReturnRequest) (rid : Nat) (rnum : String)
    (hbad : ∃ r ∈ req.items, badReturnLine so.items r.salesOrderItemId r.returnedQuantity) :
    ∃ e, SalesReturnService.createSalesReturn so req rid rnum = .error e := by
  unfold SalesReturnService.createSalesReturn
  by_cases hret : so.canReturn
  · have hbad2 : ∃ it ∈ req.items.map (buildSalesReturnItem rid),
        badReturnLine so.items it.salesOrderItemId it.returnedQuantity := by
      obtain ⟨r, hmem, hbadr⟩ := hbad
      exact ⟨buildSalesReturnItem rid r, List.mem_map_of_mem _ hmem, hbadr⟩
    obtain ⟨e, he⟩ := validateReturnItems_error_of_bad so.items
      (req.items.map (buildSalesReturnItem rid)) 1 hbad2
    refine ⟨"validation failed: " ++ e, ?_⟩
    simp only [hret, not_true_eq_false, if_false]
    have : SalesReturn.validateReturnQuantity
        (SalesReturn.calculateTotals
          { id := rid, organizationId := req.organizationId
            salesOrderId := req.salesOrderId, returnNumber := none
            status := SalesReturnStatusDraft, returnAmount := 0
            returnReason := req.returnReason, notes := req.notes
            refundPaymentId := none
            items := req.items.map (buildSalesReturnItem rid) }) so.items = .error e := by
      simp only [SalesReturn.validateReturnQuantity, SalesReturn.calculateTotals]
      exact he
    rw [this]
  · exact ⟨"sales order must be paid and shipped to create a return", by simp [hret]⟩

/-- A concrete shipped-and-paid-for sales order with one line of quantity 5. -/
def exSalesOrderShipped : SalesOrder :=
  { id := 77, organizationId := 1, customerId := 2, orderNumber := some "SO-1"
    status := SalesOrderStatusShipped
    subTotal := 100, discountTotal := 0, taxTotal := 0
    tdsAmount := 0, tcsAmount := 0, totalAmount := 100
    invoiceId := some 10, shippedDate := some 1
    items := [{ id := 100, salesOrderId := 77, itemId := 9, itemType := "product"
                name := "Widget", description := "", quantity := 5, unitPrice := 20
                discount := 0, tax := 0, total := 100, metadata := none }] }

/-- A concrete return request asking for quantity 6 of the order line whose
original quantity is 5. -/
def exReturnReqOver : CreateSalesReturnRequest :=
  { organizationId := 1, salesOrderId := 77, returnReason := "damaged", notes := ""
    items := [{ salesOrderItemId := 100, returnedQuantity := 6, unitPrice := 20
                tax := 0, reason := "damaged" }] }

/-- **C6 witness:** the concrete over-quantity return request is rejected. -/
theorem createSalesReturn_rejects_witness :
    ∃ e, SalesReturnService.createSalesReturn exSalesOrderShipped exReturnReqOver 50 "RET-1"
      = .error e :=
  createSalesReturn_rejects_invalid_quantities exSalesOrderShipped exReturnReqOver 50 "RET-1"
    ⟨⟨100, 6, 20, 0, "damaged"⟩, by simp [exReturnReqOver],
      Or.inr ⟨5, by rfl, by norm_num⟩⟩

/-- The updated invoice `SendInvoice` persists: number and PDF attached,
status moved to sent. -/
def sentVersion (i : Invoice) (num : String) (pdf : String) : Invoice :=
  { i with
    invoiceNumber := some num
    pdfPath := some pdf
    status := InvoiceStatusSent }

/-- **C4 counterexample:** two draft invoices of the same organization sent
back-to-back both receive the number INV-2023-0003 — the second send assigns
a number that is already in use, refuting "previously-unused". -/
theorem sendInvoice_reuses_number_counterexample :
    ∃ st1 st2,
      InvoiceService.sendInvoice [exInvoiceDraft, exInvoiceDraft2] 1 2023 "inv.pdf" = .ok st1
      ∧ InvoiceService.sendInvoice st1 2 2023 "inv.pdf" = .ok st2
      ∧ st2.map (fun j => j.invoiceNumber)
          = [some "INV-2023-0003", some "INV-2023-0003"] := by
  refine ⟨_, _, rfl, rfl, rfl⟩

/-- **C4 (amended).** Sending a draft invoice assigns it the number
`INV-<year>-<n>` where n is the organization's invoice count + 1 (NOT
guaranteed previously-unused: a second draft sent without an intervening
create receives the same number, and uniqueness is enforced only by the
database unique index), attaches the PDF path, and transitions it to sent;
sending a non-draft invoice fails with an error naming the current status and
leaves the store unchanged. -/
theorem sendInvoice_count_number_and_draft_guard (invoices : List Invoice)
    (id year : Nat) (pdf : String) (i : Invoice)
    (hfind : invoices.find? (fun j => j.id = id) = some i) :
    (i.status = InvoiceStatusDraft →
      InvoiceService.sendInvoice invoices id year pdf =
        .ok (invoices.map (fun j => if j.id = id then
          sentVersion i (getNextInvoiceNumber invoices i.organizationId year) pdf else j)))
    ∧ (i.status ≠ InvoiceStatusDraft →
        InvoiceService.sendInvoice invoices id year pdf =
          .error ("cannot send invoice in " ++ i.status
            ++ " status - only DRAFT invoices can be sent")) := by
  constructor
  · intro hdraft
    unfold InvoiceService.sendInvoice
    rw [hfind]
    simp only [Invoice.canSend, hdraft, decide_eq_true_eq, not_true_eq_false, if_false,
      Invoice.canTransitionTo, invoiceValidTransitions, InvoiceStatusDraft,
      InvoiceStatusSent, InvoiceStatusPaid, InvoiceStatusOverdue, InvoiceStatusVoid,
      sentVersion]
    simp [sentVersion, InvoiceStatusSent]
  · intro hnot
    unfold InvoiceService.sendInvoice
    rw [hfind]
    simp [Invoice.canSend, hnot]

/-- **C4 witness:** sending the single concrete draft invoice succeeds,
assigns INV-2023-0002 (count 1 + 1) and moves it to sent. -/
theorem sendInvoice_count_number_witness :
    InvoiceService.sendInvoice [exInvoiceDraft] 1 2023 "inv.pdf" =
      .ok ([exInvoiceDraft].map (fun j => if j.id = 1 then
        sentVersion exInvoiceDraft
          (getNextInvoiceNumber [exInvoiceDraft] exInvoiceDraft.organizationId 2023)
          "inv.pdf" else j)) :=
  (sendInvoice_count_number_and_draft_guard [exInvoiceDraft] 1 2023 "inv.pdf"
    exInvoiceDraft (by rfl)).1 (by rfl)

/-- A concrete received sales return of amount 40 against order 77. -/
def exSalesReturnReceived : SalesReturn :=
  { id := 50, organizationId := 1, salesOrderId := 77, returnNumber := some "RET-1"
    status := SalesReturnStatusReceived, returnAmount := 40
    returnReason := "damaged", notes := "", refundPaymentId := none
    items := [{ id := 0, salesReturnId := 50, salesOrderItemId := 100
                returnedQuantity := 2, unitPrice := 20, tax := 0, total := 40
                reason := "damaged" }] }

/-- A concrete refund request. -/
def exRefundReq : ProcessRefundRequest :=
  { method := "bank", reference := "rf", notes := "" }

/-- The result `ProcessRefund` produces on the concrete entities when the
stock update succeeds. -/
def exRefundResultNone : ProcessRefundResult :=
  { refundPayment :=
      { id := 60, organizationId := 1, invoiceId := 10, amount := -40
        method := "bank", reference := "rf", status := PaymentStatusCompleted
        paymentType := PaymentTypeRefund, salesReturnId := some 50, notes := "" }
    invoice := { exInvoicePaid with paidAmount := 60, balanceAmount := 40 }
    salesReturn := { exSalesReturnReceived with
      status := SalesReturnStatusRefunded
      refundPaymentId := some 60 }
    logs := [] }

/-- A concrete create-sales-order request with one line. -/
def exOrderReq : CreateSalesOrderRequest :=
  { organizationId := 1, customerId := 2, tdsAmount := 0, tcsAmount := 0
    items := [{ itemId := 9, itemType := "product", name := "Widget", description := ""
                quantity := 5, unitPrice := 20, discount := 0, tax := 0
                metadata := none }] }

/-- `CalculateTotals` leaves the item collection untouched. -/
theorem calculateTotals_items_eq (so : SalesOrder) : so.calculateTotals.items = so.items := rfl

/-- The order `CreateSalesOrder` builds and persists: the draft order with
the request's lines and recomputed totals. -/
def builtSalesOrder (req : CreateSalesOrderRequest) (oid : Nat) : SalesOrder :=
  SalesOrder.calculateTotals
    { id := oid, organizationId := req.organizationId, customerId := req.customerId
      orderNumber := none, status := SalesOrderStatusDraft
      subTotal := 0, discountTotal := 0, taxTotal := 0
      tdsAmount := req.tdsAmount, tcsAmount := req.tcsAmount, totalAmount := 0
      invoiceId := none, shippedDate := none
      items := req.items.map (buildSalesOrderItem oid) }

/-- **C8 counterexample:** when the post-persist stock decrement fails,
`CreateSalesOrder` keeps the persisted order but returns an ERROR to the
caller — it does not "still report success" as the claim states. -/
theorem createSalesOrder_stock_failure_reports_error :
    (SalesOrderService.createSalesOrder exOrderReq 77 true (.ok []) (some "inventory down")).persisted.isSome = true
    ∧ (SalesOrderService.createSalesOrder exOrderReq 77 true (.ok []) (some "inventory down")).result
        = .error "sales order created but failed to update stock: inventory down" := by
  refine ⟨?_, ?_⟩
  · norm_num [SalesOrderService.createSalesOrder, exOrderReq, SalesOrder.calculateTotals,
      SalesOrder.validate, validateSalesOrderItems, buildSalesOrderItem, shortageMessage]
  · norm_num [SalesOrderService.createSalesOrder, exOrderReq, SalesOrder.calculateTotals,
      SalesOrder.validate, validateSalesOrderItems, buildSalesOrderItem, shortageMessage]
    decide

/-- **C8 (amended).** A failed external stock update after persistence never
rolls the persisted entity back. In `ProcessRefund` the failure is only
logged and the operation still reports success (identical business result,
the failure appended to the logs); in `CreateSalesOrder` the persisted order
is likewise kept but the operation reports an error to the caller. -/
theorem stock_update_failure_not_rolled_back :
    (∀ (sr : SalesReturn) (so : SalesOrder) (invOpt : Option Invoice)
        (req : ProcessRefundRequest) (pid : Nat) (e : String) (r : ProcessRefundResult),
      SalesReturnService.processRefund sr so invOpt req pid none = .ok r →
      SalesReturnService.processRefund sr so invOpt req pid (some e) =
        .ok { r with logs := ["sales return refunded but failed to update stock: " ++ e] })
    ∧ (∀ (req : CreateSalesOrderRequest) (oid : Nat) (e : String),
        req.items ≠ [] →
        (builtSalesOrder req oid).validate = .ok () →
        (SalesOrderService.createSalesOrder req oid true (.ok []) (some e)).persisted
            = some (builtSalesOrder req oid)
        ∧ (SalesOrderService.createSalesOrder req oid true (.ok []) (some e)).result =
            .error ("sales order created but failed to update stock: " ++ e)) := by
  constructor
  · intro sr so invOpt req pid e r hok
    unfold SalesReturnService.processRefund at hok ⊢
    by_cases h1 : sr.canRefund
    · rcases h2 : so.invoiceId with _ | iid
      · simp [h1, h2] at hok
      · rcases invOpt with _ | inv
        · simp [h1, h2] at hok
        · by_cases h3 : inv.canRefund
          · rcases h4 : sr.canTransitionTo SalesReturnStatusRefunded with er | u
            · simp [h1, h2, h3, h4] at hok
            · simp only [h1, h2, h3, h4, decide_eq_true_eq, not_true_eq_false, if_false,
                Except.ok.injEq] at hok ⊢
              rw [← hok]
          · simp [h1, h2, h3] at hok
    · simp [h1] at hok
  · intro req oid e hne hval
    have hlen : req.items.length > 0 := List.length_pos.mpr hne
    simp only [builtSalesOrder] at hval
    unfold SalesOrderService.createSalesOrder
    constructor <;> simp [hlen, hval, builtSalesOrder, calculateTotals_items_eq]

/-- **C8 witness:** on the concrete received return, a failing stock update
changes only the logged warnings of the successful refund result. -/
theorem stock_update_failure_witness :
    SalesReturnService.processRefund exSalesReturnReceived exSalesOrderShipped
        (some exInvoicePaid) exRefundReq 60 (some "down")
      = .ok { exRefundResultNone with
          logs := ["sales return refunded but failed to update stock: down"] } :=
  stock_update_failure_not_rolled_back.1 exSalesReturnReceived exSalesOrderShipped
    (some exInvoicePaid) exRefundReq 60 "down" exRefundResultNone (by
      norm_num [SalesReturnService.processRefund, exSalesReturnReceived,
        exSalesOrderShipped, exInvoicePaid, exInvoiceSent, exRefundReq,
        exRefundResultNone, SalesReturn.canRefund, Invoice.canRefund,
        SalesReturn.canTransitionTo, salesReturnValidTransitions,
        SalesReturnStatusReceived, SalesReturnStatusRefunded, SalesReturnStatusDraft,
        SalesReturnStatusApproved, InvoiceStatusPaid, PaymentStatusCompleted,
        PaymentTypeRefund]
      rfl)
